import Mathlib

/-!
Shallow embedding of the change-detection monitoring engine of
`LINE_Notify_to_change_site` (src/app.py), together with theorems checking
the natural-language specification against it.

Conventions of the embedding:
* Python `str` is Lean `String`; `len` is `String.length` (characters).
* Unix timestamps (`time.time()`) and intervals are modelled as `Int`.
* Python dict records become structures; `dict.get(k, default)` defaults are
  the structure fields themselves.
* Side effects (network pushes, `time.sleep`, log entries) are made explicit
  as returned data: the list of texts handed to the messaging capability,
  the number of sleeps, the number of error-level log entries.
-/

/-- One monitored target, mirroring the JSON record created by
`add_target` in src/app.py (fields `id,url,mode,interval,notify_on_check,
attach_content,enabled,last_content,last_checked`). -/
structure Target where
  id : Nat
  url : String
  mode : String
  interval : Int
  notify_on_check : Bool
  attach_content : Bool
  enabled : Bool
  last_content : Option String
  last_checked : Int
  deriving Repr, DecidableEq

/-- Shared settings record (`app_settings.json`): LINE messaging
credentials. -/
structure Settings where
  channel_token : String
  user_id : String
  deriving Repr, DecidableEq

/-- Trace of one `send_message` call: the texts actually handed to the LINE
push API (empty when no network call is made), the number of error-level
log entries written, and the returned status string. -/
structure SendTrace where
  pushed : List String
  errorLogs : Nat
  result : String
  deriving Repr, DecidableEq

/-- Embedding of `send_message` (src/app.py lines 76-100).  The external
push capability (`requests.post` + `raise_for_status`) is a parameter
returning `Except`: `.ok` for HTTP success, `.error` for the caught
exception text.  If either credential is the empty string (Python falsy),
the function logs one error, makes no network call and returns the failure
status string. -/
def send_message (push : String → Except String Unit) (settings : Settings)
    (message : String) : SendTrace :=
  if settings.channel_token = "" ∨ settings.user_id = "" then
    { pushed := [], errorLogs := 1, result := "LINE設定が完了していません" }
  else
    { pushed := [message], errorLogs := 0,
      result :=
        match push message with
        | Except.ok _ => "LINEメッセージの送信成功"
        | Except.error e => "LINEメッセージの送信に失敗: " ++ e }

/-- Python `message[i:i+max_length] for i in range(0, len(message), max_length)`
with `max_length = 4800` (src/app.py line 111): the list of chunk bodies.
`range(0, L, s)` has `⌈L/s⌉` elements, and slice `[i:i+n]` is
drop-then-take on the character list. -/
def message_parts (message : String) : List String :=
  (List.range ((message.length + 4800 - 1) / 4800)).map
    fun i => ((message.toList.drop (i * 4800)).take 4800).asString

/-- The `part_header` string `f"【{i+1}/{len(parts)}】\n"` of src/app.py
line 113 (here `i` is already the 1-based index). -/
def part_header (i n : Nat) : String :=
  "【" ++ toString i ++ "/" ++ toString n ++ "】\n"

/-- The sequence of texts handed to `send_message` by `send_long_message`
(src/app.py lines 102-119), in send order: the message itself when its
length is at most 4800, otherwise each chunk prefixed with its
`【i/N】` marker. -/
def long_send_texts (message : String) : List String :=
  if message.length ≤ 4800 then [message]
  else
    (message_parts message).enum.map
      fun ip => part_header (ip.1 + 1) (message_parts message).length ++ ip.2

/-- Aggregated trace of one `send_long_message` call: the per-send traces in
send order and the number of `time.sleep(1)` pauses taken. -/
structure LongSendTrace where
  sends : List SendTrace
  sleeps : Nat
  deriving Repr, DecidableEq

/-- Embedding of `send_long_message` (src/app.py lines 102-119).  A message
of length at most 4800 is sent whole with no pause; a longer one is split
into `message_parts`, each sent with its marker followed by a 1-second
sleep. -/
def send_long_message (push : String → Except String Unit)
    (settings : Settings) (message : String) : LongSendTrace :=
  if message.length ≤ 4800 then
    { sends := [send_message push settings message], sleeps := 0 }
  else
    { sends :=
        (message_parts message).enum.map
          fun ip =>
            send_message push settings
              (part_header (ip.1 + 1) (message_parts message).length ++ ip.2),
      sleeps := (message_parts message).length }

/-- The due filter of `master_monitoring_loop` (src/app.py lines 243-246):
`time.time() - t.get('last_checked', 0) > t['interval'] and
t.get('enabled', True)`. -/
def targets_to_check (targets : List Target) (now : Int) : List Target :=
  targets.filter fun t => decide (now - t.last_checked > t.interval) && t.enabled

/-- Update of the first target with the given id in the fresh snapshot
(`target_to_update['last_checked'] = time.time(); if new_content is not
None: target_to_update['last_content'] = new_content`, src/app.py lines
265-267).  `next(...)` picks the first match, which is mutated in place. -/
def update_found (tid : Nat) (now : Int) (new_content : Option String) :
    List Target → List Target
  | [] => []
  | t :: ts =>
    if t.id = tid then
      { t with
        last_checked := now,
        last_content :=
          match new_content with
          | some c => some c
          | none => t.last_content } :: ts
    else t :: update_found tid now new_content ts

/-- Reconciliation step of `master_monitoring_loop` (src/app.py lines
258-269): after the poll, the registry is reloaded fresh and searched by
id.  If no target matches, a warning is logged (`Bool` component `true`)
and the pending update is discarded; otherwise the first match gets
`last_checked := now` and, on a successful extraction, `last_content`,
and the whole registry is saved back. -/
def reconcile_step (all_targets_now : List Target) (tid : Nat) (now : Int)
    (new_content : Option String) : List Target × Bool :=
  if all_targets_now.any (fun t => t.id = tid) then
    (update_found tid now new_content all_targets_now, false)
  else
    (all_targets_now, true)

/-- The mutable monitoring flag of `app_state` (src/app.py lines 61-64). -/
structure AppState where
  monitoring_active : Bool
  deriving Repr, DecidableEq

/-- Embedding of `toggle_monitoring` (src/app.py lines 285-298).  Returns
the new state, the number of monitoring threads spawned by this call, and
the status string returned to the UI. -/
def toggle_monitoring (action : String) (s : AppState) :
    AppState × Nat × String :=
  if action = "stop" then
    ({ monitoring_active := false }, 0, "監視停止中")
  else
    if !s.monitoring_active then
      ({ monitoring_active := true }, 1, "監視実行中")
    else
      (s, 0, "監視実行中")

/-- Python `str.splitlines` restricted to the line terminators occurring in
extracted page text: `\n`, `\r\n` and `\r`.  No trailing empty line is
produced. -/
def splitlines (s : String) : List String :=
  go s.toList []
where
  go : List Char → List Char → List String
    | [], acc => if acc = [] then [] else [acc.reverse.asString]
    | '\n' :: rest, acc => acc.reverse.asString :: go rest []
    | '\r' :: '\n' :: rest, acc => acc.reverse.asString :: go rest []
    | '\r' :: rest, acc => acc.reverse.asString :: go rest []
    | c :: rest, acc => go rest (c :: acc)

/-- Indices at which `x` occurs in `b`, ascending — difflib's `b2j[x]`,
with CPython's autojunk rule: when `len(b) >= 200`, elements occurring
more than `len(b)//100 + 1` times are dropped from `b2j`.  The junk
parameter is `None` throughout src/app.py, so `bjunk` is empty. -/
def b2j_get (b : List String) (x : String) : List Nat :=
  let idxs := b.enum.filterMap fun p => if p.2 = x then some p.1 else none
  if 200 ≤ b.length ∧ b.length / 100 + 1 < idxs.length then [] else idxs

/-- One row of difflib's `find_longest_match` dynamic program: for a fixed
`i`, walk the occurrence list of `a[i]` in `b` restricted to `[blo, bhi)`,
building the new diagonal-length map from the previous row and updating
the best block.  `j2len.get(j-1, 0)` at `j = 0` is a lookup of key `-1`,
which is never present, hence the explicit zero. -/
def flm_row (a b : List String) (blo bhi i : Nat)
    (acc : (Nat × Nat × Nat) × (Nat → Nat)) : (Nat × Nat × Nat) × (Nat → Nat) :=
  let js := (b2j_get b (a.getD i "")).filter fun j => decide (blo ≤ j) && decide (j < bhi)
  js.foldl
    (fun st j =>
      let k := (if j = 0 then 0 else acc.2 (j - 1)) + 1
      let best := if st.1.2.2 < k then (i + 1 - k, j + 1 - k, k) else st.1
      (best, fun j2 => if j2 = j then k else st.2 j2))
    (acc.1, fun _ => 0)

/-- The dynamic-programming core of difflib's `find_longest_match` over
`a[alo:ahi]` and `b[blo:bhi]`, before the extension loops: the best
`(besti, bestj, bestsize)` found by the `j2len` recurrence. -/
def flm_core (a b : List String) (alo ahi blo bhi : Nat) : Nat × Nat × Nat :=
  ((List.range' alo (ahi - alo)).foldl
    (fun acc i => flm_row a b blo bhi i acc)
    ((alo, blo, 0), fun _ => 0)).1

/-- Extension of the best block leftwards over equal elements
(`while besti > alo and bestj > blo and a[besti-1] == b[bestj-1]`).  The
structural fuel argument starts at `besti`, which bounds the number of left
steps, so the loop never runs out of fuel.  The junk-aware variants of this
loop never fire because `bjunk` is empty. -/
def extend_left (a b : List String) (alo blo : Nat) :
    Nat → Nat → Nat → Nat → Nat × Nat × Nat
  | 0, besti, bestj, bestsize => (besti, bestj, bestsize)
  | fuel + 1, besti, bestj, bestsize =>
    if alo < besti ∧ blo < bestj ∧
        a.getD (besti - 1) "" = b.getD (bestj - 1) "" then
      extend_left a b alo blo fuel (besti - 1) (bestj - 1) (bestsize + 1)
    else (besti, bestj, bestsize)

/-- Extension of the best block rightwards over equal elements
(`while besti+bestsize < ahi and bestj+bestsize < bhi and
a[besti+bestsize] == b[bestj+bestsize]`).  The fuel starts at `ahi`, which
bounds the number of right steps. -/
def extend_right (a b : List String) (ahi bhi besti bestj : Nat) :
    Nat → Nat → Nat
  | 0, bestsize => bestsize
  | fuel + 1, bestsize =>
    if besti + bestsize < ahi ∧ bestj + bestsize < bhi ∧
        a.getD (besti + bestsize) "" = b.getD (bestj + bestsize) "" then
      extend_right a b ahi bhi besti bestj fuel (bestsize + 1)
    else bestsize

/-- difflib's `find_longest_match(alo, ahi, blo, bhi)`: the dynamic
program followed by the two non-junk extension loops. -/
def find_longest_match (a b : List String) (alo ahi blo bhi : Nat) :
    Nat × Nat × Nat :=
  let c := flm_core a b alo ahi blo bhi
  let l := extend_left a b alo blo c.1 c.1 c.2.1 c.2.2
  (l.1, l.2.1, extend_right a b ahi bhi l.1 l.2.1 ahi l.2.2)

/-- The queue-driven recursion of difflib's `get_matching_blocks`,
fuel-bounded: pop a region, find its longest match, record it when
non-empty and push the two flanking sub-regions.  The Lean list head
plays the role of the end of the Python queue (`queue.pop()` /
`queue.append`), and the fuel passed by `matching_blocks_list` exceeds
the number of regions the recursion can ever create. -/
def matching_blocks_loop (a b : List String) :
    Nat → List (Nat × Nat × Nat × Nat) → List (Nat × Nat × Nat) →
    List (Nat × Nat × Nat)
  | 0, _, acc => acc
  | _ + 1, [], acc => acc
  | fuel + 1, (alo, ahi, blo, bhi) :: rest, acc =>
    let m := find_longest_match a b alo ahi blo bhi
    if m.2.2 ≠ 0 then
      let q1 := if alo < m.1 ∧ blo < m.2.1 then (alo, m.1, blo, m.2.1) :: rest else rest
      let q2 :=
        if m.1 + m.2.2 < ahi ∧ m.2.1 + m.2.2 < bhi then
          (m.1 + m.2.2, ahi, m.2.1 + m.2.2, bhi) :: q1
        else q1
      matching_blocks_loop a b fuel q2 (m :: acc)
    else matching_blocks_loop a b fuel rest acc

/-- Lexicographic comparison on `(i, j, size)` triples — the order used by
`matching_blocks.sort()` on Python tuples. -/
def triple_le (x y : Nat × Nat × Nat) : Bool :=
  decide (x.1 < y.1) ||
    (decide (x.1 = y.1) &&
      (decide (x.2.1 < y.2.1) || (decide (x.2.1 = y.2.1) && decide (x.2.2 ≤ y.2.2))))

/-- The adjacency-merging pass at the end of `get_matching_blocks`:
consecutive blocks `(i1,j1,k1)` and `(i2,j2,k2)` with `i1+k1 == i2` and
`j1+k1 == j2` are fused; zero-length carriers are dropped. -/
def merge_adjacent : Nat × Nat × Nat → List (Nat × Nat × Nat) →
    List (Nat × Nat × Nat)
  | (i1, j1, k1), [] => if k1 ≠ 0 then [(i1, j1, k1)] else []
  | (i1, j1, k1), (i2, j2, k2) :: rest =>
    if i1 + k1 = i2 ∧ j1 + k1 = j2 then merge_adjacent (i1, j1, k1 + k2) rest
    else if k1 ≠ 0 then (i1, j1, k1) :: merge_adjacent (i2, j2, k2) rest
    else merge_adjacent (i2, j2, k2) rest

/-- Stable insertion of an element into a sorted list: the new element goes
after every existing element less-or-equal to it, as Python's stable
`list.sort()` keeps equal elements in encounter order. -/
def insert_le {α : Type} (le : α → α → Bool) (x : α) : List α → List α
  | [] => [x]
  | y :: ys => if le y x then y :: insert_le le x ys else x :: y :: ys

/-- Stable insertion sort, the embedding of `matching_blocks.sort()` (any
stable sort under the same order yields the same list). -/
def sort_le {α : Type} (le : α → α → Bool) : List α → List α
  | [] => []
  | x :: xs => insert_le le x (sort_le le xs)

/-- difflib's `get_matching_blocks`: recursion over regions, sort,
adjacency merge, and the terminating sentinel `(len(a), len(b), 0)`. -/
def get_matching_blocks (a b : List String) : List (Nat × Nat × Nat) :=
  let blocks :=
    sort_le triple_le
      (matching_blocks_loop a b (2 * (a.length + b.length) + 2)
        [(0, a.length, 0, b.length)] [])
  merge_adjacent (0, 0, 0) blocks ++ [(a.length, b.length, 0)]

/-- One opcode of `SequenceMatcher.get_opcodes`: a tag among
`replace/delete/insert/equal` and the two half-open ranges it covers. -/
structure Opcode where
  tag : String
  i1 : Nat
  i2 : Nat
  j1 : Nat
  j2 : Nat
  deriving Repr, DecidableEq

/-- The accumulation loop of `get_opcodes`: walk the matching blocks,
emitting a replace/delete/insert opcode for the gap before each block and
an equal opcode for the block itself. -/
def opcodes_aux : Nat → Nat → List (Nat × Nat × Nat) → List Opcode
  | _, _, [] => []
  | i, j, (ai, bj, size) :: rest =>
    (if i < ai ∧ j < bj then [⟨"replace", i, ai, j, bj⟩]
     else if i < ai then [⟨"delete", i, ai, j, bj⟩]
     else if j < bj then [⟨"insert", i, ai, j, bj⟩]
     else []) ++
    (if size ≠ 0 then [⟨"equal", ai, ai + size, bj, bj + size⟩] else []) ++
    opcodes_aux (ai + size) (bj + size) rest

/-- difflib's `get_opcodes`. -/
def get_opcodes (a b : List String) : List Opcode :=
  opcodes_aux 0 0 (get_matching_blocks a b)

/-- The grouping loop of `get_grouped_opcodes`: an equal opcode wider than
`2n` splits the running group, clipped to `n` context lines on each side;
a trailing group consisting of a single equal opcode is not yielded. -/
def group_loop (n : Nat) : List Opcode → List Opcode → List (List Opcode)
  | group, [] =>
    if group ≠ [] ∧ ¬(group.length = 1 ∧ (group.headD ⟨"", 0, 0, 0, 0⟩).tag = "equal")
    then [group] else []
  | group, c :: rest =>
    if c.tag = "equal" ∧ 2 * n < c.i2 - c.i1 then
      (group ++ [⟨c.tag, c.i1, min c.i2 (c.i1 + n), c.j1, min c.j2 (c.j1 + n)⟩]) ::
        group_loop n [⟨c.tag, max c.i1 (c.i2 - n), c.i2, max c.j1 (c.j2 - n), c.j2⟩] rest
    else group_loop n (group ++ [c]) rest

/-- difflib's `get_grouped_opcodes(n)`: pad empty opcode lists with a unit
equal opcode, clip leading and trailing equal context to `n` lines, then
group.  Python's `max(i1, i2-n)` on ints coincides with the truncated
`Nat` subtraction used here because a negative `i2-n` loses to `i1 ≥ 0`. -/
def get_grouped_opcodes (a b : List String) (n : Nat) : List (List Opcode) :=
  let codes0 := get_opcodes a b
  let codes1 := if codes0 = [] then [⟨"equal", 0, 1, 0, 1⟩] else codes0
  let codes2 :=
    match codes1 with
    | c :: rest =>
      if c.tag = "equal" then
        (⟨c.tag, max c.i1 (c.i2 - n), c.i2, max c.j1 (c.j2 - n), c.j2⟩ : Opcode) :: rest
      else codes1
    | [] => codes1
  let codes3 :=
    (match codes2.reverse with
     | c :: rest =>
       (⟨c.tag, c.i1, if c.tag = "equal" then min c.i2 (c.i1 + n) else c.i2,
         c.j1, if c.tag = "equal" then min c.j2 (c.j1 + n) else c.j2⟩ : Opcode) :: rest
     | [] => codes2.reverse).reverse
  group_loop n [] codes3

/-- difflib's `_format_range_unified`: `beginning = start + 1`, decremented
when the range is empty; a one-line range prints bare. -/
def format_range_unified (start stop : Nat) : String :=
  let len := stop - start
  if len = 1 then toString (start + 1)
  else toString (if len = 0 then start else start + 1) ++ "," ++ toString len

/-- The per-opcode line production of `unified_diff`: context lines with a
space, removals from `a` with `-`, additions from `b` with `+`. -/
def op_lines (a b : List String) (op : Opcode) : List String :=
  if op.tag = "equal" then ((a.drop op.i1).take (op.i2 - op.i1)).map (" " ++ ·)
  else
    (if op.tag = "replace" ∨ op.tag = "delete" then
      ((a.drop op.i1).take (op.i2 - op.i1)).map ("-" ++ ·)
     else []) ++
    (if op.tag = "replace" ∨ op.tag = "insert" then
      ((b.drop op.j1).take (op.j2 - op.j1)).map ("+" ++ ·)
     else [])

/-- difflib's `unified_diff(a, b, fromfile, tofile, lineterm='')` as the
list of yielded lines: the two `---`/`+++` header lines (emitted once, only
when at least one group exists), then per group a `@@` hunk header and the
hunk's lines. -/
def unified_diff (a b : List String) (fromfile tofile : String) :
    List String :=
  match get_grouped_opcodes a b 3 with
  | [] => []
  | groups =>
    ("--- " ++ fromfile) :: ("+++ " ++ tofile) ::
      (groups.map fun g =>
        let first := g.headD ⟨"", 0, 0, 0, 0⟩
        let last := g.getLastD ⟨"", 0, 0, 0, 0⟩
        ("@@ -" ++ format_range_unified first.i1 last.i2 ++
          " +" ++ format_range_unified first.j1 last.j2 ++ " @@") ::
          (g.map (op_lines a b)).flatten).flatten

/-- Python `line.startswith(c)` for a single-character needle: the line is
non-empty and its first character is `c`. -/
def py_starts_with (line : String) (c : Char) : Bool :=
  match line.toList with
  | [] => false
  | d :: _ => decide (d = c)

/-- The stripped diff computed in the `Changed` branch of
`perform_scrape_and_check` (src/app.py lines 184-191): unified diff of the
splitlines of the two contents with `fromfile='変更前'`, `tofile='変更後'`,
`lineterm=''`, keeping only lines starting with `+` or `-`, then dropping
the first two (the `---`/`+++` headers). -/
def diff_lines (last_content new_content : String) : List String :=
  ((unified_diff (splitlines last_content) (splitlines new_content)
      "変更前" "変更後").filter
    fun line => py_starts_with line '+' || py_starts_with line '-').drop 2

/-- Python `s.split('\n')`: split at every newline, keeping empty pieces
(the empty string splits to `[""]`). -/
def py_split_nl (s : String) : List String :=
  go s.toList []
where
  go : List Char → List Char → List String
    | [], acc => [acc.reverse.asString]
    | '\n' :: rest, acc => acc.reverse.asString :: go rest []
    | c :: rest, acc => go rest (c :: acc)

/-- The first-5-lines preview `'\n'.join(new_content.split('\n')[:5])` of
src/app.py line 218. -/
def top_items (new_content : String) : String :=
  String.intercalate "\n" ((py_split_nl new_content).take 5)

/-- Composition of the `Unchanged` notification in
`perform_scrape_and_check` (src/app.py lines 211-221): `none` when no
notification is sent (`notify_on_check` false), otherwise the composed
message.  With `attach_content`, the message is rebuilt around
`summary_for_no_change`, which carries the 5-line preview only when the
mode is not `通常モード (ページ全体)` and the content is non-empty. -/
def unchanged_message (site_name url mode new_content : String)
    (notify_on_check attach_content : Bool) : Option String :=
  if notify_on_check then
    if attach_content then
      let summary_for_no_change :=
        if mode ∉ ["通常モード (ページ全体)"] ∧ new_content ≠ "" then
          "\n\n--- 最新上位5件 ---\n" ++ top_items new_content
        else ""
      some ("【定期チェック完了】\nサイト「" ++ site_name ++
        "」をチェックしました (変更なし)。" ++ summary_for_no_change ++
        "\n\n" ++ url)
    else
      some ("【定期チェック完了】\nサイト「" ++ site_name ++
        "」をチェックしました (変更なし)。\n" ++ url)
  else none

/-- C2: for previous lines `["a","b","c"]` and current lines
`["a","x","c"]`, the stripped diff of the change detector is exactly
`["-b", "+x"]` — the removal line before the corresponding addition. -/
theorem diff_strip_example :
    diff_lines "a\nb\nc" "a\nx\nc" = ["-b", "+x"] ∧
    splitlines "a\nb\nc" = ["a", "b", "c"] ∧
    splitlines "a\nx\nc" = ["a", "x", "c"] := by
  decide

/-- A concrete registry entry used by the closed witness statements, shaped
exactly like the record `add_target` creates. -/
def sampleTarget : Target :=
  { id := 1, url := "https://example.test", mode := "通常モード (ページ全体)",
    interval := 60, notify_on_check := false, attach_content := false,
    enabled := true, last_content := none, last_checked := 0 }

/-- C6: a target is in the due subset of a cycle iff it is in the snapshot,
enabled, and `now - last_checked > interval` holds strictly; at
`interval = 60`, `last_checked = now - 61` is included and
`last_checked = now - 59` is excluded. -/
theorem due_filter_boundary (targets : List Target) (now : Int) (t : Target) :
    (t ∈ targets_to_check targets now ↔
      t ∈ targets ∧ t.enabled = true ∧ now - t.last_checked > t.interval) ∧
    (∀ base : Target, ∀ m : Int,
      ({ base with interval := 60, enabled := true, last_checked := m - 61 } ∈
        targets_to_check
          [{ base with interval := 60, enabled := true, last_checked := m - 61 }] m) ∧
      ({ base with interval := 60, enabled := true, last_checked := m - 59 } ∉
        targets_to_check
          [{ base with interval := 60, enabled := true, last_checked := m - 59 }] m)) := by
  refine ⟨?_, ?_⟩
  · simp only [targets_to_check, List.mem_filter, Bool.and_eq_true, decide_eq_true_eq]
    tauto
  · intro base m
    constructor
    · have h61 : m - (m - 61) > (60 : Int) := by omega
      simp [targets_to_check, List.mem_filter, h61]
    · intro hmem
      rw [targets_to_check, List.mem_filter] at hmem
      have h2 := hmem.2
      simp only [Bool.and_eq_true, decide_eq_true_eq] at h2
      exact absurd h2.1 (by omega)

/-- C7: when either credential is absent (the empty string), `send_message`
logs exactly one error, performs no network call, and returns the fixed
failure status string instead of raising. -/
theorem missing_credentials_short_circuit (push : String → Except String Unit)
    (settings : Settings) (message : String)
    (h : settings.channel_token = "" ∨ settings.user_id = "") :
    send_message push settings message =
      { pushed := [], errorLogs := 1, result := "LINE設定が完了していません" } := by
  simp only [send_message, if_pos h]

/-- Closed witness for `missing_credentials_short_circuit` at empty token. -/
theorem missing_credentials_short_circuit_witness :
    ((Settings.mk "" "U123").channel_token = "" ∨
      (Settings.mk "" "U123").user_id = "") ∧
    send_message (fun _ => Except.ok ()) (Settings.mk "" "U123") "hello" =
      { pushed := [], errorLogs := 1, result := "LINE設定が完了していません" } :=
  ⟨Or.inl rfl,
    missing_credentials_short_circuit (fun _ => Except.ok ())
      (Settings.mk "" "U123") "hello" (Or.inl rfl)⟩

/-- C9: `toggle_monitoring "start"` while the flag is already set is a
no-op spawning no thread; from the stopped state it sets the flag and
spawns exactly one thread; and a second consecutive start always spawns
zero threads, so duplicate starts never create parallel pollers. -/
theorem start_no_duplicate_poller (s : AppState) :
    (s.monitoring_active = true →
      toggle_monitoring "start" s = (s, 0, "監視実行中")) ∧
    (s.monitoring_active = false →
      toggle_monitoring "start" s =
        ({ monitoring_active := true }, 1, "監視実行中")) ∧
    (toggle_monitoring "start" (toggle_monitoring "start" s).1).2.1 = 0 := by
  obtain ⟨a⟩ := s
  cases a <;> simp [toggle_monitoring]

/-- Closed witness for `start_no_duplicate_poller` in both states. -/
theorem start_no_duplicate_poller_witness :
    ((AppState.mk true).monitoring_active = true ∧
      toggle_monitoring "start" (AppState.mk true) =
        (AppState.mk true, 0, "監視実行中")) ∧
    ((AppState.mk false).monitoring_active = false ∧
      toggle_monitoring "start" (AppState.mk false) =
        (AppState.mk true, 1, "監視実行中")) :=
  ⟨⟨rfl, (start_no_duplicate_poller (AppState.mk true)).1 rfl⟩,
    ⟨rfl, (start_no_duplicate_poller (AppState.mk false)).2.1 rfl⟩⟩

/-- C10: a message of at most 4800 characters is dispatched as exactly one
`send_message` call carrying the original message — no chunk marker, no
inter-send pause — and, with credentials present, exactly one push call
whose text is the message itself. -/
theorem short_message_single_send (push : String → Except String Unit)
    (settings : Settings) (message : String) (h : message.length ≤ 4800) :
    send_long_message push settings message =
      { sends := [send_message push settings message], sleeps := 0 } ∧
    long_send_texts message = [message] ∧
    (settings.channel_token ≠ "" → settings.user_id ≠ "" →
      (send_long_message push settings message).sends.map SendTrace.pushed =
        [[message]]) := by
  refine ⟨by simp [send_long_message, h], by simp [long_send_texts, h], ?_⟩
  intro h1 h2
  simp [send_long_message, h, send_message, h1, h2]

/-- Closed witness for `short_message_single_send` on a short message. -/
theorem short_message_single_send_witness :
    ("hello".length ≤ 4800) ∧
    (send_long_message (fun _ => Except.ok ()) (Settings.mk "T" "U") "hello" =
      { sends := [send_message (fun _ => Except.ok ()) (Settings.mk "T" "U") "hello"],
        sleeps := 0 } ∧
      long_send_texts "hello" = ["hello"] ∧
      ((Settings.mk "T" "U").channel_token ≠ "" → (Settings.mk "T" "U").user_id ≠ "" →
        (send_long_message (fun _ => Except.ok ()) (Settings.mk "T" "U") "hello").sends.map
          SendTrace.pushed = [["hello"]])) :=
  ⟨by decide,
    short_message_single_send (fun _ => Except.ok ()) (Settings.mk "T" "U")
      "hello" (by decide)⟩

/-- C1: when extraction fails (`perform_scrape_and_check` catches its
exception and returns `None`) and the target is still present, the persist
step saves a registry in which the first matching target has
`last_checked` set to the current time and is otherwise identical —
`last_content` and every other field of every target unchanged — and no
deleted-warning is logged. -/
theorem failed_fetch_advances_only_last_checked
    (registry : List Target) (tid : Nat) (now : Int)
    (h : ∃ t ∈ registry, t.id = tid) :
    ∃ pre t post,
      registry = pre ++ t :: post ∧ t.id = tid ∧ (∀ u ∈ pre, u.id ≠ tid) ∧
      reconcile_step registry tid now none =
        (pre ++ { t with last_checked := now } :: post, false) := by
  induction registry with
  | nil => simp at h
  | cons hd tl ih =>
    by_cases hid : hd.id = tid
    · refine ⟨[], hd, tl, rfl, hid, by simp, ?_⟩
      simp [reconcile_step, update_found, hid]
    · have htl : ∃ t ∈ tl, t.id = tid := by
        obtain ⟨t, ht, htid⟩ := h
        rcases List.mem_cons.mp ht with rfl | hmem
        · exact absurd htid hid
        · exact ⟨t, hmem, htid⟩
      obtain ⟨pre, t, post, heq, htid, hpre, hrec⟩ := ih htl
      have hany : tl.any (fun u => u.id = tid) = true := by
        obtain ⟨u, hmem, hu⟩ := htl
        exact List.any_eq_true.mpr ⟨u, hmem, by simp [hu]⟩
      have hupd : update_found tid now none tl =
          pre ++ { t with last_checked := now } :: post := by
        rw [reconcile_step, if_pos (by simp [hany])] at hrec
        simpa using congrArg Prod.fst hrec
      refine ⟨hd :: pre, t, post, by rw [heq]; rfl, htid, ?_, ?_⟩
      · intro u hu
        rcases List.mem_cons.mp hu with rfl | hmem
        · exact hid
        · exact hpre u hmem
      · rw [reconcile_step]
        rw [if_pos (by simp [List.any_cons, hany])]
        simp only [update_found, if_neg hid, hupd, List.cons_append]

/-- Closed witness for `failed_fetch_advances_only_last_checked` on a
one-target registry. -/
theorem failed_fetch_advances_only_last_checked_witness :
    (∃ t ∈ [sampleTarget], t.id = 1) ∧
    (∃ pre t post,
      [sampleTarget] = pre ++ t :: post ∧ t.id = 1 ∧ (∀ u ∈ pre, u.id ≠ 1) ∧
      reconcile_step [sampleTarget] 1 50 none =
        (pre ++ { t with last_checked := 50 } :: post, false)) :=
  ⟨⟨sampleTarget, by simp, rfl⟩,
    failed_fetch_advances_only_last_checked [sampleTarget] 1 50
      ⟨sampleTarget, by simp, rfl⟩⟩

/-- C5: when the target was deleted during its poll, the reconciliation
finds no match, logs the warning, and leaves the registry exactly as
loaded: the id stays absent, nothing is re-created, and id-uniqueness of
the registry is untouched. -/
theorem concurrent_delete_discards_update
    (registry : List Target) (tid : Nat) (now : Int) (nc : Option String)
    (h : ∀ t ∈ registry, t.id ≠ tid) :
    reconcile_step registry tid now nc = (registry, true) ∧
    (∀ t ∈ (reconcile_step registry tid now nc).1, t.id ≠ tid) ∧
    ((registry.map Target.id).Nodup →
      ((reconcile_step registry tid now nc).1.map Target.id).Nodup) := by
  have hany : registry.any (fun t => t.id = tid) = false := by
    rw [List.any_eq_false]
    intro t ht
    simp [h t ht]
  have heq : reconcile_step registry tid now nc = (registry, true) := by
    rw [reconcile_step, if_neg (by simp [hany])]
  exact ⟨heq, by rw [heq]; exact h, by rw [heq]; exact id⟩

/-- Closed witness for `concurrent_delete_discards_update`: polling target
id 7 after it was deleted from a registry holding only id 1. -/
theorem concurrent_delete_discards_update_witness :
    (∀ t ∈ [sampleTarget], t.id ≠ 7) ∧
    (reconcile_step [sampleTarget] 7 50 (some "Hello") = ([sampleTarget], true) ∧
      (∀ t ∈ (reconcile_step [sampleTarget] 7 50 (some "Hello")).1, t.id ≠ 7) ∧
      (([sampleTarget].map Target.id).Nodup →
        (((reconcile_step [sampleTarget] 7 50 (some "Hello")).1.map Target.id).Nodup))) :=
  ⟨by decide, concurrent_delete_discards_update [sampleTarget] 7 50 (some "Hello") (by decide)⟩

/-- Every chunk body produced by the 4800-character slicer has at most 4800
characters. -/
theorem message_parts_le (message : String) :
    ∀ p ∈ message_parts message, p.length ≤ 4800 := by
  intro p hp
  simp only [message_parts, List.mem_map, List.mem_range] at hp
  obtain ⟨i, _, rfl⟩ := hp
  rw [List.length_asString, List.length_take]
  exact Nat.min_le_left _ _

/-- The slicer produces `⌈length/4800⌉` chunks. -/
theorem message_parts_count (message : String) :
    (message_parts message).length = (message.length + 4799) / 4800 := by
  rw [message_parts, List.length_map, List.length_range]
  congr 1

/-- Flattening the first `k` stride-`n` chunks of a character list gives its
first `k * n` characters. -/
theorem range_chunks_flatten (n : Nat) (l : List Char) :
    ∀ k : Nat,
      ((List.range k).map fun i => (l.drop (i * n)).take n).flatten =
        l.take (k * n)
  | 0 => by simp
  | k + 1 => by
    rw [List.range_succ, List.map_append, List.flatten_append,
      range_chunks_flatten n l k]
    simp only [List.map_cons, List.map_nil, List.flatten_cons, List.flatten_nil,
      List.append_nil]
    rw [← List.take_add]
    congr 1
    ring

/-- The chunk bodies concatenate (at character level) back to the original
message. -/
theorem message_parts_flatten (message : String) :
    ((message_parts message).map String.toList).flatten = message.toList := by
  rw [message_parts, List.map_map]
  have hcomp :
      (String.toList ∘ fun i => ((message.toList.drop (i * 4800)).take 4800).asString) =
        fun i => (message.toList.drop (i * 4800)).take 4800 := by
    funext i
    rfl
  rw [hcomp, range_chunks_flatten]
  apply List.take_of_length_le
  have hl : message.toList.length = message.length := rfl
  rw [hl]
  have hmod := Nat.div_add_mod (message.length + 4800 - 1) 4800
  omega

/-- Folding string append from an arbitrary initial accumulator factors the
accumulator out. -/
theorem foldl_append_init (l : List String) :
    ∀ init : String,
      l.foldl (fun r s => r ++ s) init = init ++ l.foldl (fun r s => r ++ s) "" := by
  induction l with
  | nil => intro init; simp [String.append_empty]
  | cons hd tl ih =>
    intro init
    simp only [List.foldl_cons]
    rw [ih (init ++ hd), ih ("" ++ hd), String.empty_append, String.append_assoc]

/-- Unfolding lemma for `String.join` on a cons cell. -/
theorem string_join_cons (hd : String) (tl : List String) :
    String.join (hd :: tl) = hd ++ String.join tl := by
  show List.foldl (fun r s => r ++ s) "" (hd :: tl) = _
  rw [List.foldl_cons, foldl_append_init, String.empty_append]
  rfl

/-- Joining strings is flattening their character lists. -/
theorem string_join_eq_flatten (parts : List String) :
    String.join parts = ((parts.map String.toList).flatten).asString := by
  induction parts with
  | nil => rfl
  | cons hd tl ih =>
    rw [string_join_cons, ih]
    simp only [List.map_cons, List.flatten_cons]
    rw [show (hd.toList ++ (tl.map String.toList).flatten).asString =
        hd.toList.asString ++ ((tl.map String.toList).flatten).asString from rfl,
      String.asString_toList]

/-- Concatenating the chunk bodies reproduces the original message. -/
theorem message_parts_join (message : String) :
    String.join (message_parts message) = message := by
  rw [string_join_eq_flatten, message_parts_flatten, String.asString_toList]

/-- Index-wise description of the texts handed to `send_message` for a long
message: the chunk at index `i` carries the `【i+1/N】` marker. -/
theorem long_send_texts_getElem? (message : String)
    (h : ¬ message.length ≤ 4800) (i : Nat) :
    (long_send_texts message)[i]? =
      ((message_parts message)[i]?).map
        (fun p => part_header (i + 1) (message_parts message).length ++ p) := by
  rw [long_send_texts, if_neg h, List.getElem?_map, List.getElem?_enum]
  cases (message_parts message)[i]? <;> rfl

/-- For a long message, one marked text is produced per chunk. -/
theorem long_send_texts_length (message : String)
    (h : ¬ message.length ≤ 4800) :
    (long_send_texts message).length = (message_parts message).length := by
  rw [long_send_texts, if_neg h, List.length_map, List.enum_length]

/-- The marker string is never empty. -/
theorem part_header_pos (i n : Nat) : 0 < (part_header i n).length := by
  rw [part_header, String.length_append, String.length_append,
    String.length_append, String.length_append]
  have h1 : ("【" : String).length = 1 := rfl
  omega

/-- C3: a message longer than 4800 characters is split into
`⌈length/4800⌉` ordered chunks of at most 4800 characters each; the text
sent at index `i` is the chunk prefixed with its `【i+1/N】` marker; the
chunk bodies concatenate back to the original message; and the send trace
is exactly those texts in index order. -/
theorem long_message_chunking (push : String → Except String Unit)
    (settings : Settings) (message : String) (h : 4800 < message.length) :
    (long_send_texts message).length = (message.length + 4799) / 4800 ∧
    (message_parts message).length = (message.length + 4799) / 4800 ∧
    (∀ p ∈ message_parts message, p.length ≤ 4800) ∧
    String.join (message_parts message) = message ∧
    (∀ i, i < (message_parts message).length →
      (long_send_texts message)[i]? =
        some (part_header (i + 1) (message_parts message).length ++
          (message_parts message).getD i "")) ∧
    (send_long_message push settings message).sends =
      (long_send_texts message).map (send_message push settings) := by
  have hno : ¬ message.length ≤ 4800 := by omega
  refine ⟨?_, message_parts_count message, message_parts_le message,
    message_parts_join message, ?_, ?_⟩
  · rw [long_send_texts_length message hno, message_parts_count]
  · intro i hi
    rw [long_send_texts_getElem? message hno i, List.getElem?_eq_getElem hi,
      List.getD_eq_getElem _ _ hi]
    rfl
  · rw [send_long_message, if_neg hno, long_send_texts, if_neg hno, List.map_map]
    rfl

/-- A 10,000-character message, for the closed chunking witness. -/
def msg10000 : String := String.mk (List.replicate 10000 'a')

/-- Closed witness for `long_message_chunking`: the 10,000-character
message splits into exactly 3 marked chunks. -/
theorem long_message_chunking_witness :
    (4800 < msg10000.length) ∧
    ((long_send_texts msg10000).length = (msg10000.length + 4799) / 4800 ∧
      (message_parts msg10000).length = (msg10000.length + 4799) / 4800 ∧
      (∀ p ∈ message_parts msg10000, p.length ≤ 4800) ∧
      String.join (message_parts msg10000) = msg10000 ∧
      (∀ i, i < (message_parts msg10000).length →
        (long_send_texts msg10000)[i]? =
          some (part_header (i + 1) (message_parts msg10000).length ++
            (message_parts msg10000).getD i "")) ∧
      (send_long_message (fun _ => Except.ok ()) (Settings.mk "T" "U") msg10000).sends =
        (long_send_texts msg10000).map
          (send_message (fun _ => Except.ok ()) (Settings.mk "T" "U"))) ∧
    (long_send_texts msg10000).length = 3 := by
  have hlen : msg10000.length = 10000 := by
    rw [msg10000,
      show (String.mk (List.replicate 10000 'a')).length =
        (List.replicate 10000 'a').length from rfl,
      List.length_replicate]
  have h : 4800 < msg10000.length := by omega
  have main :=
    long_message_chunking (fun _ => Except.ok ()) (Settings.mk "T" "U") msg10000 h
  exact ⟨h, main, by rw [main.1, hlen]⟩

/-- A 4,801-character message, one character over the per-send budget. -/
def msg4801 : String := String.mk (List.replicate 4801 'a')

/-- C4 counterexample: for the 4,801-character message, the first text
handed to the messaging capability is its 4,800-character chunk *plus* the
`【1/2】` marker, so its length exceeds 4800. -/
theorem chunk_marker_exceeds_budget :
    ∃ t ∈ long_send_texts msg4801, 4800 < t.length := by
  have hlen : msg4801.length = 4801 := by
    rw [msg4801,
      show (String.mk (List.replicate 4801 'a')).length =
        (List.replicate 4801 'a').length from rfl,
      List.length_replicate]
  have hno : ¬ msg4801.length ≤ 4800 := by omega
  have hcount : (message_parts msg4801).length = 2 := by
    rw [message_parts_count, hlen]
  have h0 : (message_parts msg4801)[0]? =
      some (((msg4801.toList.drop (0 * 4800)).take 4800).asString) := by
    rw [message_parts, List.getElem?_map]
    have hr : (List.range ((msg4801.length + 4800 - 1) / 4800))[0]? = some 0 := by
      rw [List.getElem?_range]
      omega
    rw [hr]
    rfl
  have htex := long_send_texts_getElem? msg4801 hno 0
  rw [h0] at htex
  refine ⟨_, List.getElem?_mem htex, ?_⟩
  rw [String.length_append]
  have hbody : (((msg4801.toList.drop (0 * 4800)).take 4800).asString).length = 4800 := by
    rw [List.length_asString, List.length_take, List.length_drop]
    have ht : msg4801.toList.length = msg4801.length := rfl
    omega
  rw [hbody]
  have := part_header_pos (0 + 1) (message_parts msg4801).length
  omega

/-- C4 amended: every text handed to a single push send is either a short
message sent whole (at most 4800 characters) or a marker followed by a
chunk body of at most 4800 characters — the 4800-character budget bounds
the chunk body, not the marker-bearing text. -/
theorem chunk_body_within_budget (message t : String)
    (h : t ∈ long_send_texts message) :
    (message.length ≤ 4800 ∧ t = message) ∨
    (4800 < message.length ∧
      ∃ i, i < (message_parts message).length ∧
        t = part_header (i + 1) (message_parts message).length ++
            (message_parts message).getD i "" ∧
        ((message_parts message).getD i "").length ≤ 4800) := by
  by_cases hle : message.length ≤ 4800
  · left
    rw [long_send_texts, if_pos hle] at h
    exact ⟨hle, by simpa using h⟩
  · right
    refine ⟨by omega, ?_⟩
    rw [long_send_texts, if_neg hle] at h
    obtain ⟨ip, hip, rfl⟩ := List.mem_map.mp h
    have hgp := List.mem_enum_iff_getElem?.mp hip
    have hi : ip.1 < (message_parts message).length :=
      (List.getElem?_eq_some.mp hgp).1
    have hv : (message_parts message).getD ip.1 "" = ip.2 := by
      rw [List.getD_eq_getElem _ _ hi]
      exact (List.getElem?_eq_some.mp hgp).2
    refine ⟨ip.1, hi, by rw [hv], ?_⟩
    rw [hv]
    exact message_parts_le message ip.2 (List.getElem?_mem hgp)

/-- Closed witness for `chunk_body_within_budget` on a short message. -/
theorem chunk_body_within_budget_witness :
    ("hi" ∈ long_send_texts "hi") ∧
    (("hi".length ≤ 4800 ∧ "hi" = "hi") ∨
      (4800 < "hi".length ∧
        ∃ i, i < (message_parts "hi").length ∧
          "hi" = part_header (i + 1) (message_parts "hi").length ++
              (message_parts "hi").getD i "" ∧
          ((message_parts "hi").getD i "").length ≤ 4800)) :=
  ⟨by decide, chunk_body_within_budget "hi" "hi" (by decide)⟩

/-- C8 counterexample: with `notify_on_check` and `attach_content` both
true but the default full-page mode, the composed `Unchanged` message
contains no 5-line preview at all — the first five lines of the current
content do not even occur in it. -/
theorem unchanged_preview_counterexample :
    unchanged_message "s" "u" "通常モード (ページ全体)" "1\n2\n3\n4\n5\n6" true true =
      some "【定期チェック完了】\nサイト「s」をチェックしました (変更なし)。\n\nu" ∧
    ¬ List.IsInfix ("1\n2\n3\n4\n5").toList
      ("【定期チェック完了】\nサイト「s」をチェックしました (変更なし)。\n\nu").toList := by
  exact ⟨by decide, by decide⟩

/-- C8 amended: an `Unchanged` notification is composed iff
`notify_on_check` is set; when `attach_content` is also set, the
first-5-lines preview is appended only when the mode is not the default
full-page mode and the current content is non-empty; otherwise the message
carries no preview. -/
theorem unchanged_notification_behavior (site url mode c : String)
    (notify attach : Bool) :
    (unchanged_message site url mode c notify attach = none ↔ notify = false) ∧
    (notify = true → attach = true → mode ≠ "通常モード (ページ全体)" → c ≠ "" →
      unchanged_message site url mode c notify attach =
        some ("【定期チェック完了】\nサイト「" ++ site ++
          "」をチェックしました (変更なし)。" ++
          ("\n\n--- 最新上位5件 ---\n" ++ top_items c) ++ "\n\n" ++ url)) ∧
    (notify = true → attach = true →
      (mode = "通常モード (ページ全体)" ∨ c = "") →
      unchanged_message site url mode c notify attach =
        some ("【定期チェック完了】\nサイト「" ++ site ++
          "」をチェックしました (変更なし)。" ++ "\n\n" ++ url)) := by
  refine ⟨?_, ?_, ?_⟩
  · cases notify <;> cases attach <;> simp [unchanged_message]
  · intro h1 h2 h3 h4
    subst h1; subst h2
    rw [unchanged_message, if_pos rfl, if_pos rfl]
    rw [if_pos (⟨by simp [h3], h4⟩ :
      mode ∉ ["通常モード (ページ全体)"] ∧ c ≠ "")]
  · intro h1 h2 h3
    subst h1; subst h2
    rw [unchanged_message, if_pos rfl, if_pos rfl]
    rw [if_neg (show ¬ (mode ∉ ["通常モード (ページ全体)"] ∧ c ≠ "") by
      rcases h3 with h | h <;> simp [h])]
    show some ("【定期チェック完了】\nサイト「" ++ site ++
        "」をチェックしました (変更なし)。" ++ "" ++ "\n\n" ++ url) =
      some ("【定期チェック完了】\nサイト「" ++ site ++
        "」をチェックしました (変更なし)。" ++ "\n\n" ++ url)
    rw [String.append_empty]

/-- Closed witness for `unchanged_notification_behavior`: a non-default
mode with non-empty content gets the 5-line preview. -/
theorem unchanged_notification_behavior_witness :
    unchanged_message "s" "u" "メルカリモード (商品リスト)" "1\n2\n3\n4\n5\n6" true true =
      some ("【定期チェック完了】\nサイト「" ++ "s" ++
        "」をチェックしました (変更なし)。" ++
        ("\n\n--- 最新上位5件 ---\n" ++ top_items "1\n2\n3\n4\n5\n6") ++
        "\n\n" ++ "u") :=
  (unchanged_notification_behavior "s" "u" "メルカリモード (商品リスト)"
    "1\n2\n3\n4\n5\n6" true true).2.1 rfl rfl (by decide) (by decide)

/-- Closed witness for `due_filter_boundary` on a one-target registry. -/
theorem due_filter_boundary_witness :
    (sampleTarget ∈ targets_to_check [sampleTarget] 100 ↔
      sampleTarget ∈ [sampleTarget] ∧ sampleTarget.enabled = true ∧
        100 - sampleTarget.last_checked > sampleTarget.interval) ∧
    (∀ base : Target, ∀ m : Int,
      ({ base with interval := 60, enabled := true, last_checked := m - 61 } ∈
        targets_to_check
          [{ base with interval := 60, enabled := true, last_checked := m - 61 }] m) ∧
      ({ base with interval := 60, enabled := true, last_checked := m - 59 } ∉
        targets_to_check
          [{ base with interval := 60, enabled := true, last_checked := m - 59 }] m)) :=
  due_filter_boundary [sampleTarget] 100 sampleTarget
